import Mathlib

/-!
Shallow embedding of `src/platform/backends/qemu/qemu_virtual_machine_factory.cpp`
(multipass QEMU virtual-machine factory), covering:

* `create_virtual_machine` (handle construction),
* `create_vm_and_instance_disk_data` (the transactional clone with its scope-guard
  rollback),
* `prepare_source_image`,
* `get_backend_version_string` (the version probe).

Collaborators that live outside the provided source (MP_FILEOPS, CloudInitIso's
storage, the yaml cloud-config utilities, the process layer, the
QemuVirtualMachine constructor) are modelled from the specification; each such
definition carries a doc comment starting with `Modelled from the spec:`.
Filesystem state is explicit: a `World` of instance directories and the archive
files inside them, threaded through every step of the clone.
-/

namespace Multipass

/-- A structured cloud-config document: an ordered list of (field, value) pairs.
The C++ code holds these as YAML text; the embedding keeps them structured, so
the yaml emit/parse round-trip is the identity. -/
abbrev Doc := List (String × String)

namespace Doc

/-- Look up a field's value in a document (first occurrence wins). -/
def lookupField : Doc → String → Option String
  | [], _ => none
  | (k', v') :: rest, k => if k' = k then some v' else lookupField rest k

/-- Set a field: replace the first occurrence if present, append it otherwise. -/
def setField : Doc → String → String → Doc
  | [], k, v => [(k, v)]
  | (k', v') :: rest, k, v => if k' = k then (k, v) :: rest else (k', v') :: setField rest k v

end Doc

/-- A boot-config archive (`CloudInitIso`): an ordered mapping from entry names
("meta-data", "network-config", ...) to document content. -/
abbrev Iso := List (String × Doc)

namespace Iso

/-- Entry lookup, as `CloudInitIso::at` but total: `none` stands for the
out-of-range error `at` raises on a missing key. -/
def atKey : Iso → String → Option Doc
  | [], _ => none
  | (k', v') :: rest, k => if k' = k then some v' else atKey rest k

/-- Membership test, as `CloudInitIso::contains`. -/
def containsKey (iso : Iso) (k : String) : Bool :=
  (iso.atKey k).isSome

/-- In-place update of an existing entry (the C++ code writes through the
reference returned by `at`); a missing key leaves the archive unchanged. -/
def setKey : Iso → String → Doc → Iso
  | [], _, _ => []
  | (k', v') :: rest, k, v => if k' = k then (k, v) :: rest else (k', v') :: setKey rest k v

end Iso

/-- On-disk container format of a disk image. -/
inductive ImgFormat where
  | qcow2
  | raw
deriving DecidableEq, Repr

/-- A disk-image file reference: its location plus the container format the file
is actually in (the C++ code carries only the path string and inspects the file;
the embedding keeps the format explicit so conversion is a pure function). -/
structure ImgPath where
  loc : String
  fmt : ImgFormat
deriving DecidableEq, Repr

/-- Modelled from the spec: `mp::backend::convert_to_qcow_if_necessary` (qemu_img
utilities, not under src/) converts the image to the backend's required qcow2
container format if it is not already in it, returning the resulting path; an
already-converted image is returned unchanged. -/
def convert_to_qcow_if_necessary (p : ImgPath) : ImgPath :=
  if p.fmt = ImgFormat.qcow2 then p else { loc := p.loc ++ ".qcow2", fmt := ImgFormat.qcow2 }

/-- The `VMImage` value: a disk image reference plus metadata (id, release information,
aliases); fields beyond `image_path` are opaque to the factory. The field set
beyond `image_path` is modelled from the spec's data model. -/
structure VMImage where
  image_path : ImgPath
  id : String
  original_release : String
  release_date : String
  aliases : List String
deriving DecidableEq, Repr

/-- The `VMSpecs` fields consumed by the clone (lines 109, 117-123 of the source). -/
structure VMSpecs where
  num_cores : Nat
  mem_size : Nat
  disk_space : Nat
  default_mac_address : String
  extra_interfaces : List String
  ssh_username : String
deriving DecidableEq, Repr

/-- The `VirtualMachineDescription` as assembled by the clone (lines 117-129): the
four trailing brace-initialised members are the default-empty cloud-init
documents. -/
structure VirtualMachineDescription where
  num_cores : Nat
  mem_size : Nat
  disk_space : Nat
  vm_name : String
  default_mac_address : String
  extra_interfaces : List String
  ssh_username : String
  image : VMImage
  cloud_init_iso : String
  meta_data_config : Doc
  user_data_config : Doc
  vendor_data_config : Doc
  network_data_config : Doc
deriving DecidableEq, Repr

/-- A constructed VM handle: the description it was built from and the instance
directory it was given (the runtime machinery is outside the factory). -/
structure VM where
  desc : VirtualMachineDescription
  instance_directory : String
deriving DecidableEq, Repr

/-- Failures surfaced by clone steps; the VM constructor and the snapshot loader
are external and may return any of these. -/
inductive CloneErr where
  | copyFailed
  | isoReadFailed
  | missingKey (k : String)
  | isoWriteFailed
  | vmConstructFailed
  | snapshotLoadFailed
deriving DecidableEq, Repr

/-- One file on disk: the directory holding it, its name, and (for the archive
files the factory manipulates) its content. -/
structure FileEntry where
  dir : String
  name : String
  content : Iso
deriving DecidableEq, Repr

/-- Filesystem state visible to the factory: the set of instance directories
present, and the archive files inside them, keyed by (directory, file name). -/
structure World where
  dirs : List String
  files : List FileEntry
deriving DecidableEq, Repr

namespace World

/-- Directory existence (`MP_FILEOPS.exists`). -/
def dirExists (w : World) (d : String) : Bool :=
  w.dirs.contains d

/-- First file matching (directory, name), the order files were written. -/
def findIn : List FileEntry → String → String → Option Iso
  | [], _, _ => none
  | e :: rest, d, f => if e.dir = d ∧ e.name = f then some e.content else findIn rest d f

/-- Content of the file at (directory, name), `none` when absent. -/
def findFile (w : World) (d f : String) : Option Iso :=
  findIn w.files d f

/-- Recursive directory copy (`MP_FILEOPS.copy` with `copy_options::recursive`):
creates the destination directory and copies every file of the source directory
into it. -/
def copyDir (w : World) (src dest : String) : World :=
  { dirs := dest :: w.dirs
    files := (w.files.filterMap fun e =>
      if e.dir = src then some { e with dir := dest } else none) ++ w.files }

/-- Write a file (`CloudInitIso::write_to`): the new content shadows any older
entry for the same (directory, name). -/
def writeFile (w : World) (d f : String) (c : Iso) : World :=
  { w with files := ⟨d, f, c⟩ :: w.files }

/-- Create an empty directory (a partially-performed copy that failed midway). -/
def addDir (w : World) (d : String) : World :=
  { w with dirs := d :: w.dirs }

/-- Modelled from the spec: `MP_FILEOPS.remove` with an `std::error_code`
out-parameter (FileOps is not under src/) deletes the destination instance
directory and its contents, reporting failure through the error code instead of
throwing; the embedding makes it total. -/
def remove_ec (w : World) (d : String) : World :=
  { dirs := w.dirs.filter fun x => x ≠ d
    files := w.files.filter fun e => e.dir ≠ d }

/-- Modelled from the spec: `MP_FILEOPS.exists` with an `std::error_code`
out-parameter never throws; a total boolean query. -/
def exists_ec (w : World) (d : String) : Bool :=
  w.dirExists d

end World

/-- The body of the `sg::make_scope_guard` closure (lines 85-91): if the
destination instance directory exists, remove it; both operations are the
non-throwing error-code variants, so the action is a total function on worlds. -/
def rollback_action (dest : String) (w : World) : World :=
  if w.exists_ec dest then w.remove_ec dest else w

/-- Modelled from the spec: `mp::utils::backend_directory_path` (not under src/)
joins the data directory with the backend directory name. -/
def backend_directory_path (data_directory backend_name : String) : String :=
  data_directory ++ "/" ++ backend_name

/-- Path concatenation `std::filesystem::path::operator/`: join with a `/` separator. -/
def pathJoin (p s : String) : String :=
  p ++ "/" ++ s

/-- The boot-config archive file name used by the clone (line 97). -/
def cloudInitIsoName : String :=
  "cloud-init-config.iso"

/-- The instance data directory
`<data_root>/<backend-directory-name>/vault/instances/<instance-name>` computed
at lines 77-82 of the source. -/
def instance_dir (data_directory backend_name instance_name : String) : String :=
  pathJoin (pathJoin (pathJoin (backend_directory_path data_directory backend_name)
    "vault") "instances") instance_name

/-- The field of a meta-data document that names the instance. -/
def identity_field : String :=
  "identity"

/-- Modelled from the spec: serialising a cloud-config document
(`mpu::emit_cloud_config`, not under src/); documents are kept structured in
this embedding, so emission is the identity. -/
def emit_cloud_config (d : Doc) : Doc :=
  d

/-- Modelled from the spec: `mpu::make_cloud_init_meta_config` (yaml utilities,
not under src/) rewrites the meta-data document to encode first-boot identity
for the new instance name as a function of the existing content plus the new
name: the identity field is set to the name and every other field of the
existing document is preserved (merge, not a blank template). -/
def make_cloud_init_meta_config (name : String) (d : Doc) : Doc :=
  d.setField identity_field name

/-- Modelled from the spec: `mpu::make_cloud_init_network_config` (yaml
utilities, not under src/) rewrites the network-config document from the
existing content plus the destination's primary MAC address and extra
interfaces (same merge-not-replace policy). -/
def make_cloud_init_network_config (mac : String) (extras : List String) (d : Doc) : Doc :=
  (d.setField "default-mac" mac).setField "extra-interfaces" (String.intercalate "," extras)

/-- The factory's per-instance configuration: the data directory it was built
with and `qemu_platform->get_directory_name()`. -/
structure Factory where
  data_dir : String
  backend_dirname : String
deriving DecidableEq, Repr

/-- The base factory's `get_instance_directory`: the instance directory
the factory hands to the VM constructor. Modelled from the spec's layout
contract (`derive_instances_dir` is not under src/). -/
def Factory.get_instance_directory (fa : Factory) (name : String) : String :=
  instance_dir fa.data_dir fa.backend_dirname name

/-- The external `QemuVirtualMachine` constructor: from a description and an
instance directory it either produces a handle or raises. -/
abbrev VMCtor := VirtualMachineDescription → String → Except CloneErr VM

/-- Function `create_virtual_machine` (lines 56-65): constructs the handle via the
`QemuVirtualMachine` constructor at the factory's instance directory for the
description's name, performing no filesystem mutation; a constructor error
propagates unchanged. -/
def create_virtual_machine (fa : Factory) (ctor : VMCtor)
    (desc : VirtualMachineDescription) (w : World) : World × Except CloneErr VM :=
  (w, ctor desc (fa.get_instance_directory desc.vm_name))

/-- Arguments of `create_vm_and_instance_disk_data` beyond the factory itself
(the data directory is the factory's). -/
structure CloneArgs where
  src_vm_spec : VMSpecs
  dest_vm_spec : VMSpecs
  source_name : String
  destination_name : String
  dest_vm_image : VMImage
deriving DecidableEq, Repr

/-- Injectable behaviour of the external collaborators of the clone: whether
each fallible filesystem/archive step fails, and the externally-supplied VM
constructor and snapshot loader. -/
structure CloneEnv where
  copy_fail : Bool
  copy_partial : Bool
  read_fail : Bool
  write_fail : Bool
  ctor : VMCtor
  load_snapshots : VM → VMSpecs → VMSpecs → String → Except CloneErr VM

/-- The source instance data directory of a clone (line 81). -/
def src_dir (fa : Factory) (a : CloneArgs) : String :=
  instance_dir fa.data_dir fa.backend_dirname a.source_name

/-- The destination instance data directory of a clone (line 82), the path the
rollback guard deletes. -/
def dest_dir (fa : Factory) (a : CloneArgs) : String :=
  instance_dir fa.data_dir fa.backend_dirname a.destination_name

/-- The conditional network-config rewrite of lines 105-112: if a
"network-config" entry exists it is updated from its existing content plus the
destination's networking; no entry is ever created. -/
def isoNetworkRewrite (a : CloneArgs) (iso1 : Iso) : Iso :=
  if iso1.containsKey "network-config" then
    match iso1.atKey "network-config" with
    | some nc => iso1.setKey "network-config"
        (emit_cloud_config (make_cloud_init_network_config a.dest_vm_spec.default_mac_address
          a.dest_vm_spec.extra_interfaces nc))
    | none => iso1
  else iso1

/-- The archive rewrite of lines 101-112: update the "meta-data" entry with the
new identity derived from its existing content plus the destination name, then
apply the conditional network-config rewrite. -/
def isoRewrite (a : CloneArgs) (iso : Iso) (md : Doc) : Iso :=
  isoNetworkRewrite a (iso.setKey "meta-data"
    (emit_cloud_config (make_cloud_init_meta_config a.destination_name md)))

/-- The `VirtualMachineDescription` assembled at lines 117-129. -/
def mkCloneDesc (a : CloneArgs) (isoPath : String) : VirtualMachineDescription :=
  { num_cores := a.dest_vm_spec.num_cores
    mem_size := a.dest_vm_spec.mem_size
    disk_space := a.dest_vm_spec.disk_space
    vm_name := a.destination_name
    default_mac_address := a.dest_vm_spec.default_mac_address
    extra_interfaces := a.dest_vm_spec.extra_interfaces
    ssh_username := a.dest_vm_spec.ssh_username
    image := a.dest_vm_image
    cloud_init_iso := isoPath
    meta_data_config := []
    user_data_config := []
    vendor_data_config := []
    network_data_config := [] }

/-- The fallible step sequence of the clone (lines 93-132), before the scope
guard is accounted for: recursive copy, archive read, meta-data access and
rewrite, optional network-config rewrite, archive write-back, handle
construction, snapshot load. An error carries the world at the moment it was
raised. -/
def clone_steps (fa : Factory) (env : CloneEnv) (a : CloneArgs) (w : World) :
    Except (CloneErr × World) (World × VM) :=
  let srcDir := src_dir fa a
  let destDir := dest_dir fa a
  if env.copy_fail || !(w.dirExists srcDir) then
    Except.error (CloneErr.copyFailed, if env.copy_partial then w.addDir destDir else w)
  else
    let w1 := w.copyDir srcDir destDir
    if env.read_fail then Except.error (CloneErr.isoReadFailed, w1)
    else
      match w1.findFile destDir cloudInitIsoName with
      | none => Except.error (CloneErr.isoReadFailed, w1)
      | some iso =>
        match iso.atKey "meta-data" with
        | none => Except.error (CloneErr.missingKey "meta-data", w1)
        | some md =>
          if env.write_fail then Except.error (CloneErr.isoWriteFailed, w1)
          else
            let w2 := w1.writeFile destDir cloudInitIsoName (isoRewrite a iso md)
            let desc := mkCloneDesc a (pathJoin destDir cloudInitIsoName)
            match create_virtual_machine fa env.ctor desc w2 with
            | (w3, Except.error e) => Except.error (e, w3)
            | (w3, Except.ok vm) =>
              match env.load_snapshots vm a.src_vm_spec a.dest_vm_spec a.source_name with
              | Except.error e => Except.error (e, w3)
              | Except.ok vm2 => Except.ok (w3, vm2)

/-- Observable outcome of one clone call: the final filesystem state, the
returned handle or surfaced error, and the scope guard's fate. -/
structure CloneOutcome where
  world : World
  result : Except CloneErr VM
  guardDismissed : Bool
  rollbackRan : Bool

/-- Function `create_vm_and_instance_disk_data` (lines 67-136): run the clone steps under
the scope guard of lines 85-91. If any step raises, the guard runs
`rollback_action` on the destination directory before the error surfaces; only
when every step succeeds is the guard dismissed (line 134) and the handle
returned. -/
def create_vm_and_instance_disk_data (fa : Factory) (env : CloneEnv) (a : CloneArgs)
    (w : World) : CloneOutcome :=
  match clone_steps fa env a w with
  | Except.error (e, w') =>
    { world := rollback_action (dest_dir fa a) w'
      result := Except.error e
      guardDismissed := false
      rollbackRan := true }
  | Except.ok (w', vm) =>
    { world := w'
      result := Except.ok vm
      guardDismissed := true
      rollbackRan := false }

/-- A world in which the clone destination does not yet exist: no directory and
no files under the destination path (the caller-serialisation obligation of the
spec). -/
def freshDest (w : World) (d : String) : Prop :=
  w.dirExists d = false ∧ ∀ e ∈ w.files, e.dir ≠ d

instance (w : World) (d : String) : Decidable (freshDest w d) := by
  unfold freshDest
  infer_instance

/-- Function `prepare_source_image` (lines 143-149): copy the image value, convert the
path to qcow2 if necessary, amend the file in place to qcow2 v3 (a content-only
normalisation that leaves the path unchanged), and return the copy. -/
def prepare_source_image (source_image : VMImage) : VMImage :=
  { source_image with image_path := convert_to_qcow_if_necessary source_image.image_path }

/-- Outcome of the `qemu-system-<arch> --version` subprocess as `execute()`
reports it. Modelled from the spec: the process layer is not under src/; the
probe either completes successfully with captured standard output, fails to
start, or exits with a non-zero code (carried as `codePred + 1`). -/
inductive ProcessOutcome where
  | completed (stdout : String)
  | failedToStart (failure_message : String)
  | exitedNonZero (codePred : Nat) (stdout stderr : String)
deriving DecidableEq, Repr

/-- One emitted log record (level, category, message). -/
structure LogEntry where
  level : String
  cat : String
  message : String
deriving DecidableEq, Repr

/-- Characters matched by the capture group of the
`^QEMU emulator version ([\d\.]+)` regular expression. -/
def version_char (c : Char) : Bool :=
  c.isDigit || c = '.'

/-- Strip an expected leading character sequence, returning the remainder. -/
def dropLeading : List Char → List Char → Option (List Char)
  | [], rest => some rest
  | _ :: _, [] => none
  | p :: ps, c :: cs => if p = c then dropLeading ps cs else none

/-- The regular expression `^QEMU emulator version ([\d\.]+)` (line 167):
anchored at the start of the output, the literal prefix followed by a non-empty
run of digits and dots; returns the captured group. -/
def parse_qemu_version (out : String) : Option String :=
  match dropLeading "QEMU emulator version ".toList out.toList with
  | none => none
  | some rest =>
    let v := rest.takeWhile version_char
    if v.isEmpty then none else some (String.mk v)

/-- Function `get_backend_version_string` (lines 162-199): on a successful exit, parse
the output against the version pattern and return `qemu-<version>`, or log and
return `qemu-unknown` when it does not match; on a start failure or non-zero
exit, log and return `qemu-unknown`. The function is total — no outcome raises. -/
def get_backend_version_string (p : ProcessOutcome) : String × List LogEntry :=
  match p with
  | ProcessOutcome.completed out =>
    match parse_qemu_version out with
    | some v => ("qemu-" ++ v, [])
    | none =>
      ("qemu-unknown",
        [⟨"error", "qemu factory", "Failed to parse QEMU version out: " ++ out⟩])
  | ProcessOutcome.failedToStart msg =>
    ("qemu-unknown", [⟨"error", "qemu factory", "Qemu failed to start: " ++ msg⟩])
  | ProcessOutcome.exitedNonZero _ out err =>
    ("qemu-unknown",
      [⟨"error", "qemu factory", "Qemu fail: with outputs:\n" ++ out ++ "\n" ++ err⟩])


/-- A sample boot-config archive holding a meta-data document with one custom
field, used by the concrete witnesses. -/
def sampleIso : Iso :=
  [("meta-data", [("foo", "bar")])]

/-- Sample resource specification for witnesses. -/
def sampleSpecs : VMSpecs :=
  { num_cores := 1
    mem_size := 1024
    disk_space := 2048
    default_mac_address := "52:54:00:00:00:01"
    extra_interfaces := []
    ssh_username := "ubuntu" }

/-- Sample destination image for witnesses. -/
def sampleImage : VMImage :=
  { image_path := { loc := "/img/base", fmt := ImgFormat.qcow2 }
    id := "img0"
    original_release := "24.04"
    release_date := "2026-01-01"
    aliases := ["noble"] }

/-- Sample clone arguments for witnesses. -/
def sampleArgs : CloneArgs :=
  { src_vm_spec := sampleSpecs
    dest_vm_spec := sampleSpecs
    source_name := "vm1"
    destination_name := "vm2"
    dest_vm_image := sampleImage }

/-- Sample factory (data directory and backend directory name) for witnesses. -/
def sampleFactory : Factory :=
  { data_dir := "/data", backend_dirname := "qemu" }

/-- Sample world: the source instance directory exists and holds the sample
archive; the destination does not exist. -/
def sampleWorld : World :=
  { dirs := [src_dir sampleFactory sampleArgs]
    files := [⟨src_dir sampleFactory sampleArgs, cloudInitIsoName, sampleIso⟩] }

/-- A VM constructor that always succeeds, for witnesses. -/
def okCtor : VMCtor :=
  fun d dir => Except.ok ⟨d, dir⟩

/-- A snapshot loader that always succeeds, for witnesses. -/
def okLoad : VM → VMSpecs → VMSpecs → String → Except CloneErr VM :=
  fun vm _ _ _ => Except.ok vm

/-- Environment in which every clone step succeeds. -/
def sampleEnvOk : CloneEnv :=
  { copy_fail := false
    copy_partial := false
    read_fail := false
    write_fail := false
    ctor := okCtor
    load_snapshots := okLoad }

/-- Environment in which the recursive copy fails, leaving a partially created
destination directory behind. -/
def sampleEnvCopyFail : CloneEnv :=
  { sampleEnvOk with copy_fail := true, copy_partial := true }

/-- A VM constructor that always raises, for witnesses. -/
def failCtor : VMCtor :=
  fun _ _ => Except.error CloneErr.vmConstructFailed

/-!
## Lemma library

Helper lemmas about the embedded data structures; the claim theorems follow.
-/

namespace Doc

theorem lookupField_setField_self (d : Doc) (k v : String) :
    (d.setField k v).lookupField k = some v := by
  induction d with
  | nil => simp [setField, lookupField]
  | cons hd tl ih =>
    obtain ⟨k', v'⟩ := hd
    by_cases h : k' = k
    · simp [setField, lookupField, h]
    · simp [setField, lookupField, h, ih]

theorem lookupField_setField_ne (d : Doc) (k v k' : String) (h : k' ≠ k) :
    (d.setField k v).lookupField k' = d.lookupField k' := by
  induction d with
  | nil => simp [setField, lookupField, Ne.symm h]
  | cons hd tl ih =>
    obtain ⟨k₀, v₀⟩ := hd
    by_cases h0 : k₀ = k
    · subst h0
      simp [setField, lookupField, Ne.symm h]
    · by_cases h1 : k₀ = k'
      · simp [setField, lookupField, h0, h1, h]
      · simp [setField, lookupField, h0, h1, ih]

end Doc

namespace Iso

theorem atKey_setKey_self (iso : Iso) (k : String) (v : Doc) (h : iso.containsKey k = true) :
    (iso.setKey k v).atKey k = some v := by
  induction iso with
  | nil => simp [containsKey, atKey] at h
  | cons hd tl ih =>
    obtain ⟨k', v'⟩ := hd
    by_cases h0 : k' = k
    · simp [setKey, atKey, h0]
    · simp [containsKey, atKey, h0] at h
      simp [setKey, atKey, h0, ih h]

theorem atKey_setKey_ne (iso : Iso) (k : String) (v : Doc) (k' : String) (h : k' ≠ k) :
    (iso.setKey k v).atKey k' = iso.atKey k' := by
  induction iso with
  | nil => simp [setKey, atKey]
  | cons hd tl ih =>
    obtain ⟨k₀, v₀⟩ := hd
    by_cases h0 : k₀ = k
    · subst h0
      simp [setKey, atKey, Ne.symm h]
    · by_cases h1 : k₀ = k'
      · simp [setKey, atKey, h0, h1, h]
      · simp [setKey, atKey, h0, h1, ih]

theorem setKey_of_not_contains (iso : Iso) (k : String) (v : Doc)
    (h : iso.containsKey k = false) : iso.setKey k v = iso := by
  induction iso with
  | nil => simp [setKey]
  | cons hd tl ih =>
    obtain ⟨k₀, v₀⟩ := hd
    by_cases h0 : k₀ = k
    · simp [containsKey, atKey, h0] at h
    · simp only [containsKey, atKey, h0, if_neg h0] at h
      simp [setKey, h0, ih h]

theorem containsKey_setKey (iso : Iso) (k : String) (v : Doc) (k' : String) :
    (iso.setKey k v).containsKey k' = iso.containsKey k' := by
  by_cases h : k' = k
  · subst h
    by_cases hc : iso.containsKey k' = true
    · simp only [containsKey, atKey_setKey_self iso k' v hc, Option.isSome_some]
      exact hc.symm
    · simp only [Bool.not_eq_true] at hc
      rw [setKey_of_not_contains iso k' v hc]
  · simp [containsKey, atKey_setKey_ne iso k v k' h]

end Iso

theorem contains_filter_ne_self (l : List String) (d : String) :
    (l.filter fun x => x ≠ d).contains d = false := by
  by_contra hc
  simp only [Bool.not_eq_false] at hc
  have hm := List.mem_filter.mp (List.mem_of_elem_eq_true hc)
  simp at hm

namespace World

theorem dirExists_remove_ec (w : World) (d : String) :
    (w.remove_ec d).dirExists d = false := by
  simp [remove_ec, dirExists, contains_filter_ne_self]

theorem findFile_writeFile_self (w : World) (d f : String) (c : Iso) :
    (w.writeFile d f c).findFile d f = some c := by
  simp [writeFile, findFile, findIn]

theorem dirs_writeFile (w : World) (d f : String) (c : Iso) :
    (w.writeFile d f c).dirs = w.dirs := rfl

theorem dirExists_copyDir_dest (w : World) (src dest : String) :
    (w.copyDir src dest).dirExists dest = true := by
  simp [copyDir, dirExists]

theorem findIn_append (l₁ l₂ : List FileEntry) (d f : String) :
    findIn (l₁ ++ l₂) d f =
      match findIn l₁ d f with
      | some c => some c
      | none => findIn l₂ d f := by
  induction l₁ with
  | nil => simp [findIn]
  | cons e rest ih =>
    by_cases h : e.dir = d ∧ e.name = f
    · simp [findIn, h]
    · simp [findIn, h, ih]

theorem findIn_copied (l : List FileEntry) (src dest f : String) :
    findIn (l.filterMap fun e => if e.dir = src then some { e with dir := dest } else none)
        dest f = findIn l src f := by
  induction l with
  | nil => simp [findIn]
  | cons e rest ih =>
    by_cases h : e.dir = src
    · by_cases hf : e.name = f
      · simp [findIn, h, hf]
      · simp [findIn, h, hf, ih]
    · simp [findIn, h, ih]

theorem findIn_none_of_fresh (l : List FileEntry) (d f : String)
    (h : ∀ e ∈ l, e.dir ≠ d) : findIn l d f = none := by
  induction l with
  | nil => rfl
  | cons e rest ih =>
    have hd : e.dir ≠ d := h e (List.mem_cons_self e rest)
    simp only [findIn, hd, false_and, if_false]
    exact ih fun e' he' => h e' (List.mem_cons_of_mem e he')

theorem findFile_copyDir_dest (w : World) (src dest f : String)
    (h : ∀ e ∈ w.files, e.dir ≠ dest) :
    (w.copyDir src dest).findFile dest f = w.findFile src f := by
  simp only [copyDir, findFile, findIn_append]
  rw [findIn_copied]
  cases hc : findIn w.files src f with
  | some c => rfl
  | none => simpa using findIn_none_of_fresh w.files dest f h

end World

theorem dirExists_rollback_action (dest : String) (w : World) :
    (rollback_action dest w).dirExists dest = false := by
  by_cases h : w.exists_ec dest = true
  · simp [rollback_action, h, World.dirExists_remove_ec]
  · simp only [Bool.not_eq_true] at h
    rw [rollback_action, if_neg (by simp [h])]
    exact h

/-- Any error outcome of the clone is produced by the scope guard: its world is
`rollback_action` applied at the destination directory. -/
theorem clone_error_world_shape (fa : Factory) (env : CloneEnv) (a : CloneArgs)
    (w : World) (e : CloneErr)
    (h : (create_vm_and_instance_disk_data fa env a w).result = Except.error e) :
    ∃ w', (create_vm_and_instance_disk_data fa env a w).world
      = rollback_action (dest_dir fa a) w' := by
  unfold create_vm_and_instance_disk_data at h ⊢
  cases hs : clone_steps fa env a w with
  | error p =>
    obtain ⟨e', w'⟩ := p
    simp only [hs]
    exact ⟨w', rfl⟩
  | ok p =>
    obtain ⟨w', vm⟩ := p
    simp [hs] at h

/-- A successful run of the clone steps reads the destination archive after the
copy, finds a meta-data entry, and ends in the world where the rewritten archive
has been written back; the handle's construction left the world unchanged. -/
theorem clone_steps_ok_shape (fa : Factory) (env : CloneEnv) (a : CloneArgs)
    (w : World) (w' : World) (vm : VM)
    (h : clone_steps fa env a w = Except.ok (w', vm)) :
    ∃ iso md,
      (w.copyDir (src_dir fa a) (dest_dir fa a)).findFile (dest_dir fa a) cloudInitIsoName
        = some iso ∧
      iso.atKey "meta-data" = some md ∧
      w' = (w.copyDir (src_dir fa a) (dest_dir fa a)).writeFile (dest_dir fa a)
        cloudInitIsoName (isoRewrite a iso md) := by
  simp only [clone_steps, create_virtual_machine] at h
  split at h
  next => simp at h
  next =>
    split at h
    next => simp at h
    next =>
      split at h
      next => simp at h
      next iso hiso =>
        split at h
        next => simp at h
        next md hmd =>
          split at h
          next => simp at h
          next =>
            split at h
            next => simp at h
            next w3 vm0 hctor =>
              split at h
              next => simp at h
              next vm2 hload =>
                simp only [Except.ok.injEq, Prod.mk.injEq] at h
                refine ⟨iso, md, hiso, hmd, ?_⟩
                rw [← h.1]
                exact (congrArg Prod.fst hctor).symm

/-- The network-config rewrite never touches other entries. -/
theorem atKey_isoNetworkRewrite_ne (a : CloneArgs) (iso1 : Iso) (k : String)
    (h : k ≠ "network-config") :
    (isoNetworkRewrite a iso1).atKey k = iso1.atKey k := by
  unfold isoNetworkRewrite
  split
  · split
    · exact Iso.atKey_setKey_ne _ _ _ _ h
    · rfl
  · rfl

/-- The network-config rewrite neither creates nor removes entries. -/
theorem containsKey_isoNetworkRewrite (a : CloneArgs) (iso1 : Iso) (k : String) :
    (isoNetworkRewrite a iso1).containsKey k = iso1.containsKey k := by
  unfold isoNetworkRewrite
  split
  · split
    · exact Iso.containsKey_setKey _ _ _ _
    · rfl
  · rfl

/-- After the archive rewrite, the meta-data entry is the old document with the
identity field set to the destination name. -/
theorem atKey_isoRewrite_meta (a : CloneArgs) (iso : Iso) (md : Doc)
    (h : iso.containsKey "meta-data" = true) :
    (isoRewrite a iso md).atKey "meta-data"
      = some (md.setField identity_field a.destination_name) := by
  unfold isoRewrite
  rw [atKey_isoNetworkRewrite_ne _ _ _ (by decide), Iso.atKey_setKey_self _ _ _ h]
  rfl

/-- The archive rewrite neither creates nor removes entries. -/
theorem containsKey_isoRewrite (a : CloneArgs) (iso : Iso) (md : Doc) (k : String) :
    (isoRewrite a iso md).containsKey k = iso.containsKey k := by
  unfold isoRewrite
  rw [containsKey_isoNetworkRewrite, Iso.containsKey_setKey]

/-!
## Claim theorems
-/

/-- C1: for every injected failure at any step of the clone sequence (recursive
copy, archive read, archive rewrite, archive write-back, handle construction,
snapshot load), when `create_vm_and_instance_disk_data` returns with an error,
the destination instance directory does not exist — the rollback guard removed
it before the error surfaced. -/
theorem C1_clone_error_removes_dest_dir (fa : Factory) (env : CloneEnv) (a : CloneArgs)
    (w : World) (e : CloneErr)
    (h : (create_vm_and_instance_disk_data fa env a w).result = Except.error e) :
    (create_vm_and_instance_disk_data fa env a w).world.dirExists (dest_dir fa a) = false := by
  obtain ⟨w', hw⟩ := clone_error_world_shape fa env a w e h
  rw [hw]
  exact dirExists_rollback_action _ _

/-- Witness for C1: a concrete clone whose copy step fails (leaving a partial
destination directory); the call errors and the destination directory is gone. -/
theorem C1_clone_error_removes_dest_dir_witness :
    (create_vm_and_instance_disk_data sampleFactory sampleEnvCopyFail sampleArgs
      sampleWorld).result = Except.error CloneErr.copyFailed ∧
    (create_vm_and_instance_disk_data sampleFactory sampleEnvCopyFail sampleArgs
      sampleWorld).world.dirExists (dest_dir sampleFactory sampleArgs) = false :=
  ⟨rfl, C1_clone_error_removes_dest_dir sampleFactory sampleEnvCopyFail sampleArgs
    sampleWorld CloneErr.copyFailed rfl⟩

/-- C2: for every clone whose source meta-data document contains a custom field
X, after a successful clone to destination name N the destination archive's
meta-data entry still contains X unchanged and has the identity field equal to
N — the new meta-data is a function of the old content plus the new name, never
a blank template. -/
theorem C2_meta_rewrite_preserves_fields (fa : Factory) (env : CloneEnv) (a : CloneArgs)
    (w : World) (iso : Iso) (md : Doc) (X v : String)
    (hfresh : ∀ e ∈ w.files, e.dir ≠ dest_dir fa a)
    (hiso : w.findFile (src_dir fa a) cloudInitIsoName = some iso)
    (hmd : iso.atKey "meta-data" = some md)
    (hX : X ≠ identity_field)
    (hv : md.lookupField X = some v)
    (hok : (create_vm_and_instance_disk_data fa env a w).result.isOk = true) :
    ∃ iso' md',
      (create_vm_and_instance_disk_data fa env a w).world.findFile (dest_dir fa a)
        cloudInitIsoName = some iso' ∧
      iso'.atKey "meta-data" = some md' ∧
      md'.lookupField X = some v ∧
      md'.lookupField identity_field = some a.destination_name := by
  cases hs : clone_steps fa env a w with
  | error p =>
    obtain ⟨e, w'⟩ := p
    simp [create_vm_and_instance_disk_data, hs, Except.isOk, Except.toBool] at hok
  | ok p =>
    obtain ⟨w', vm⟩ := p
    obtain ⟨iso0, md0, hiso0, hmd0, hw⟩ := clone_steps_ok_shape fa env a w w' vm hs
    have hfind : (w.copyDir (src_dir fa a) (dest_dir fa a)).findFile (dest_dir fa a)
        cloudInitIsoName = w.findFile (src_dir fa a) cloudInitIsoName :=
      World.findFile_copyDir_dest w _ _ _ hfresh
    have hiso0e : iso0 = iso := Option.some.inj (hiso0.symm.trans (hfind.trans hiso))
    subst hiso0e
    have hmd0e : md0 = md := Option.some.inj (hmd0.symm.trans hmd)
    subst hmd0e
    have hworld : (create_vm_and_instance_disk_data fa env a w).world = w' := by
      simp [create_vm_and_instance_disk_data, hs]
    have hcontains : iso0.containsKey "meta-data" = true := by
      simp [Iso.containsKey, hmd0]
    refine ⟨isoRewrite a iso0 md0, md0.setField identity_field a.destination_name,
      ?_, ?_, ?_, ?_⟩
    · rw [hworld, hw]
      exact World.findFile_writeFile_self _ _ _ _
    · exact atKey_isoRewrite_meta a iso0 md0 hcontains
    · rw [Doc.lookupField_setField_ne _ _ _ _ hX]
      exact hv
    · exact Doc.lookupField_setField_self _ _ _

/-- Witness for C2: the concrete successful clone of the sample world; the
custom field "foo" of the source meta-data survives and the identity field is
the destination name. -/
theorem C2_meta_rewrite_preserves_fields_witness :
    ∃ iso' md',
      (create_vm_and_instance_disk_data sampleFactory sampleEnvOk sampleArgs
        sampleWorld).world.findFile (dest_dir sampleFactory sampleArgs)
        cloudInitIsoName = some iso' ∧
      iso'.atKey "meta-data" = some md' ∧
      md'.lookupField "foo" = some "bar" ∧
      md'.lookupField identity_field = some sampleArgs.destination_name :=
  C2_meta_rewrite_preserves_fields sampleFactory sampleEnvOk sampleArgs sampleWorld
    sampleIso [("foo", "bar")] "foo" "bar" (by decide) rfl rfl (by decide) rfl rfl

/-- C5: the rollback guard is dismissed exactly when all clone steps (copy,
archive edit, persist, handle construction, snapshot load) succeed, and after a
fully successful clone the guard's delete action never ran, so the destination
directory persists. -/
theorem C5_commit_on_success (fa : Factory) (env : CloneEnv) (a : CloneArgs) (w : World) :
    ((create_vm_and_instance_disk_data fa env a w).guardDismissed = true ↔
      (create_vm_and_instance_disk_data fa env a w).result.isOk = true) ∧
    ((create_vm_and_instance_disk_data fa env a w).result.isOk = true →
      (create_vm_and_instance_disk_data fa env a w).rollbackRan = false ∧
      (create_vm_and_instance_disk_data fa env a w).world.dirExists (dest_dir fa a) = true) := by
  cases hs : clone_steps fa env a w with
  | error p =>
    obtain ⟨e, w'⟩ := p
    simp [create_vm_and_instance_disk_data, hs, Except.isOk, Except.toBool]
  | ok p =>
    obtain ⟨w', vm⟩ := p
    obtain ⟨iso, md, hiso, hmd, hw⟩ := clone_steps_ok_shape fa env a w w' vm hs
    constructor
    · simp [create_vm_and_instance_disk_data, hs, Except.isOk, Except.toBool]
    · intro _
      refine ⟨by simp [create_vm_and_instance_disk_data, hs], ?_⟩
      have hworld : (create_vm_and_instance_disk_data fa env a w).world = w' := by
        simp [create_vm_and_instance_disk_data, hs]
      rw [hworld, hw]
      exact World.dirExists_copyDir_dest w (src_dir fa a) (dest_dir fa a)

/-- Witness for C5: a concrete fully successful clone; the guard was dismissed,
its delete action never ran, and the destination directory persists. -/
theorem C5_commit_on_success_witness :
    (create_vm_and_instance_disk_data sampleFactory sampleEnvOk sampleArgs
      sampleWorld).result.isOk = true ∧
    (create_vm_and_instance_disk_data sampleFactory sampleEnvOk sampleArgs
      sampleWorld).guardDismissed = true ∧
    (create_vm_and_instance_disk_data sampleFactory sampleEnvOk sampleArgs
      sampleWorld).rollbackRan = false ∧
    (create_vm_and_instance_disk_data sampleFactory sampleEnvOk sampleArgs
      sampleWorld).world.dirExists (dest_dir sampleFactory sampleArgs) = true := by
  have h := C5_commit_on_success sampleFactory sampleEnvOk sampleArgs sampleWorld
  have hok : (create_vm_and_instance_disk_data sampleFactory sampleEnvOk sampleArgs
      sampleWorld).result.isOk = true := by rfl
  exact ⟨hok, h.1.mpr hok, h.2 hok⟩

/-- C7: for every clone whose source archive lacks a "network-config" entry and
whose remaining preconditions hold (source present, meta-data entry present, no
failure injected), the clone succeeds and the destination archive also lacks a
"network-config" entry: nothing is synthesized for the absent key. -/
theorem C7_network_config_absence_preserved (fa : Factory) (env : CloneEnv) (a : CloneArgs)
    (w : World) (iso : Iso)
    (hfresh : ∀ e ∈ w.files, e.dir ≠ dest_dir fa a)
    (hsrc : w.dirExists (src_dir fa a) = true)
    (hiso : w.findFile (src_dir fa a) cloudInitIsoName = some iso)
    (hmeta : iso.containsKey "meta-data" = true)
    (hnc : iso.containsKey "network-config" = false)
    (hcopy : env.copy_fail = false) (hread : env.read_fail = false)
    (hwrite : env.write_fail = false)
    (hctor : ∀ d s, (env.ctor d s).isOk = true)
    (hload : ∀ vm s1 s2 n, (env.load_snapshots vm s1 s2 n).isOk = true) :
    (create_vm_and_instance_disk_data fa env a w).result.isOk = true ∧
    ∃ iso',
      (create_vm_and_instance_disk_data fa env a w).world.findFile (dest_dir fa a)
        cloudInitIsoName = some iso' ∧
      iso'.containsKey "network-config" = false := by
  obtain ⟨md, hmd⟩ : ∃ md, iso.atKey "meta-data" = some md := by
    cases h : iso.atKey "meta-data" with
    | none => simp [Iso.containsKey, h] at hmeta
    | some md => exact ⟨md, rfl⟩
  have hfind : (w.copyDir (src_dir fa a) (dest_dir fa a)).findFile (dest_dir fa a)
      cloudInitIsoName = some iso :=
    (World.findFile_copyDir_dest w _ _ _ hfresh).trans hiso
  cases hc : env.ctor (mkCloneDesc a (pathJoin (dest_dir fa a) cloudInitIsoName))
      (fa.get_instance_directory
        (mkCloneDesc a (pathJoin (dest_dir fa a) cloudInitIsoName)).vm_name) with
  | error e =>
    have h := hctor (mkCloneDesc a (pathJoin (dest_dir fa a) cloudInitIsoName))
      (fa.get_instance_directory
        (mkCloneDesc a (pathJoin (dest_dir fa a) cloudInitIsoName)).vm_name)
    rw [hc] at h
    simp [Except.isOk, Except.toBool] at h
  | ok vm0 =>
    cases hl : env.load_snapshots vm0 a.src_vm_spec a.dest_vm_spec a.source_name with
    | error e =>
      have h := hload vm0 a.src_vm_spec a.dest_vm_spec a.source_name
      rw [hl] at h
      simp [Except.isOk, Except.toBool] at h
    | ok vm2 =>
      have hsteps : clone_steps fa env a w = Except.ok
          ((w.copyDir (src_dir fa a) (dest_dir fa a)).writeFile (dest_dir fa a)
            cloudInitIsoName (isoRewrite a iso md), vm2) := by
        simp only [clone_steps, create_virtual_machine, hcopy, hsrc, hread, hwrite,
          Bool.false_or, Bool.not_true, hfind, hmd, hc, hl, Bool.false_eq_true, if_false]
      refine ⟨by simp [create_vm_and_instance_disk_data, hsteps, Except.isOk, Except.toBool],
        isoRewrite a iso md, ?_, ?_⟩
      · have hworld : (create_vm_and_instance_disk_data fa env a w).world
            = (w.copyDir (src_dir fa a) (dest_dir fa a)).writeFile (dest_dir fa a)
              cloudInitIsoName (isoRewrite a iso md) := by
          simp [create_vm_and_instance_disk_data, hsteps]
        rw [hworld]
        exact World.findFile_writeFile_self _ _ _ _
      · rw [containsKey_isoRewrite]
        exact hnc

/-- Witness for C7: the sample clone's source archive has no "network-config"
entry; the clone succeeds and the destination archive has none either. -/
theorem C7_network_config_absence_preserved_witness :
    (create_vm_and_instance_disk_data sampleFactory sampleEnvOk sampleArgs
      sampleWorld).result.isOk = true ∧
    ∃ iso',
      (create_vm_and_instance_disk_data sampleFactory sampleEnvOk sampleArgs
        sampleWorld).world.findFile (dest_dir sampleFactory sampleArgs)
        cloudInitIsoName = some iso' ∧
      iso'.containsKey "network-config" = false :=
  C7_network_config_absence_preserved sampleFactory sampleEnvOk sampleArgs sampleWorld
    sampleIso (by decide) rfl rfl rfl rfl rfl rfl rfl (fun _ _ => rfl) (fun _ _ _ _ => rfl)

/-- C6: the rollback action registered at the start of a clone is a total
function assembled only from the non-throwing error-code file operations — it
never raises on any filesystem state — and it tolerates the destination
directory not existing: in that case it changes nothing, and in every case it
leaves the destination directory absent. -/
theorem C6_rollback_tolerant (w : World) (dest : String) :
    (w.exists_ec dest = false → rollback_action dest w = w) ∧
    (rollback_action dest w).dirExists dest = false := by
  constructor
  · intro h
    rw [rollback_action, if_neg (by simp [h])]
  · exact dirExists_rollback_action dest w

/-- Witness for C6: on a concrete world without the destination directory, the
rollback action is a no-op and the directory stays absent. -/
theorem C6_rollback_tolerant_witness :
    sampleWorld.exists_ec (dest_dir sampleFactory sampleArgs) = false ∧
    rollback_action (dest_dir sampleFactory sampleArgs) sampleWorld = sampleWorld ∧
    (rollback_action (dest_dir sampleFactory sampleArgs) sampleWorld).dirExists
      (dest_dir sampleFactory sampleArgs) = false := by
  have h := C6_rollback_tolerant sampleWorld (dest_dir sampleFactory sampleArgs)
  have hne : sampleWorld.exists_ec (dest_dir sampleFactory sampleArgs) = false := by rfl
  exact ⟨hne, h.1 hne, h.2⟩

/-- C3: `get_backend_version_string` returns "qemu-8.2.1" (with nothing logged)
when the subprocess completes successfully with output
"QEMU emulator version 8.2.1\n"; for every other outcome — failure to start,
non-zero exit, or non-matching output — it returns the sentinel "qemu-unknown"
and logs; being a total function, it never raises to the caller. -/
theorem C3_version_probe (msg : String) (codePred : Nat) (out err bad : String) :
    get_backend_version_string (ProcessOutcome.completed "QEMU emulator version 8.2.1\n")
      = ("qemu-8.2.1", []) ∧
    ((get_backend_version_string (ProcessOutcome.failedToStart msg)).1 = "qemu-unknown" ∧
      (get_backend_version_string (ProcessOutcome.failedToStart msg)).2 ≠ []) ∧
    ((get_backend_version_string (ProcessOutcome.exitedNonZero codePred out err)).1
        = "qemu-unknown" ∧
      (get_backend_version_string (ProcessOutcome.exitedNonZero codePred out err)).2 ≠ []) ∧
    (parse_qemu_version bad = none →
      (get_backend_version_string (ProcessOutcome.completed bad)).1 = "qemu-unknown" ∧
      (get_backend_version_string (ProcessOutcome.completed bad)).2 ≠ []) := by
  refine ⟨rfl, ⟨rfl, by simp [get_backend_version_string]⟩,
    ⟨rfl, by simp [get_backend_version_string]⟩, fun h => ?_⟩
  rw [get_backend_version_string, h]
  exact ⟨rfl, by simp⟩

/-- Witness for C3 at the non-matching output "not a version": the parse fails
and the probe returns the sentinel with a log record. -/
theorem C3_version_probe_witness :
    parse_qemu_version "not a version" = none ∧
    (get_backend_version_string (ProcessOutcome.completed "not a version")).1
      = "qemu-unknown" ∧
    (get_backend_version_string (ProcessOutcome.completed "not a version")).2 ≠ [] := by
  have h := C3_version_probe "m" 0 "o" "e" "not a version"
  have hp : parse_qemu_version "not a version" = none := by rfl
  exact ⟨hp, h.2.2.2 hp⟩

/-- C4: `prepare_source_image` is idempotent — applying it twice yields the same
image (same resulting path and format) as applying it once; on an
already-converted image the second application is a no-op. -/
theorem C4_prepare_source_image_idempotent (img : VMImage) :
    prepare_source_image (prepare_source_image img) = prepare_source_image img := by
  have hconv : ∀ p : ImgPath,
      convert_to_qcow_if_necessary (convert_to_qcow_if_necessary p)
        = convert_to_qcow_if_necessary p := by
    intro p
    by_cases h : p.fmt = ImgFormat.qcow2
    · simp [convert_to_qcow_if_necessary, h]
    · simp [convert_to_qcow_if_necessary, h]
  simp [prepare_source_image, hconv]

/-- C8: the clone computes the source and destination instance directories as
`<data_root>/<backend-directory-name>/vault/instances/<instance-name>`, and the
boot-config archive it edits is the file named `cloud-init-config.iso` at the
top level of the destination instance directory. -/
theorem C8_instance_layout (dd b n : String) :
    instance_dir dd b n = dd ++ "/" ++ b ++ "/vault/instances/" ++ n ∧
    cloudInitIsoName = "cloud-init-config.iso" ∧
    pathJoin (instance_dir dd b n) cloudInitIsoName
      = dd ++ "/" ++ b ++ "/vault/instances/" ++ n ++ "/cloud-init-config.iso" := by
  have hseg : ("/" ++ ("vault" ++ ("/" ++ ("instances" ++ "/"))) : String)
      = "/vault/instances/" := by decide
  have h1 : instance_dir dd b n = dd ++ "/" ++ b ++ "/vault/instances/" ++ n := by
    simp only [instance_dir, pathJoin, backend_directory_path, ← hseg]
    simp only [String.append_assoc]
  have hseg2 : ("/" ++ "cloud-init-config.iso" : String) = "/cloud-init-config.iso" := by
    decide
  refine ⟨h1, rfl, ?_⟩
  rw [pathJoin, h1, String.append_assoc]
  simp only [cloudInitIsoName]
  rw [hseg2]

/-- C9: `create_virtual_machine` performs no filesystem mutation — the world is
returned unchanged, its only product being the constructor's result at the
factory's instance directory for the description's name — and any error raised
during handle construction propagates unchanged to the caller, with no retry. -/
theorem C9_create_vm_frame (fa : Factory) (ctor : VMCtor)
    (desc : VirtualMachineDescription) (w : World) :
    (create_virtual_machine fa ctor desc w).1 = w ∧
    (∀ e : CloneErr, ctor desc (fa.get_instance_directory desc.vm_name) = Except.error e →
      (create_virtual_machine fa ctor desc w).2 = Except.error e) :=
  ⟨rfl, fun _ h => h⟩

/-- Witness for C9: a concrete always-raising constructor; the world is
untouched and the error comes back unchanged. -/
theorem C9_create_vm_frame_witness :
    (create_virtual_machine sampleFactory failCtor (mkCloneDesc sampleArgs "p")
      sampleWorld).1 = sampleWorld ∧
    (create_virtual_machine sampleFactory failCtor (mkCloneDesc sampleArgs "p")
      sampleWorld).2 = Except.error CloneErr.vmConstructFailed := by
  have h := C9_create_vm_frame sampleFactory failCtor (mkCloneDesc sampleArgs "p") sampleWorld
  exact ⟨h.1, h.2 CloneErr.vmConstructFailed rfl⟩

/-- C10: `prepare_source_image` leaves its argument unmodified (it is a pure
function of an immutable value) and returns a copy in which only `image_path`
may differ: every other metadata field of the result equals the input's. -/
theorem C10_prepare_source_image_frame (img : VMImage) :
    (prepare_source_image img).id = img.id ∧
    (prepare_source_image img).original_release = img.original_release ∧
    (prepare_source_image img).release_date = img.release_date ∧
    (prepare_source_image img).aliases = img.aliases :=
  ⟨rfl, rfl, rfl, rfl⟩

end Multipass
